import Mathlib

/-!
Shallow embedding of the DIGITAL-WORKFLOWS e-receipt frontend
(src/services/api.js, src/App.jsx dashboard, src/components/ReceiptForm.jsx,
src/context/AuthContext.jsx) and proofs about the claimed behaviour.

JavaScript conventions are modelled as follows: a possibly-absent or
possibly-`null` value is an `Option`; string truthiness (`""` is falsy) is
made explicit through `jsOrStr` / `truthyStr`; `localStorage` is the
three-key record `Storage`; `Date.now()` and every network response are
explicit parameters, so each handler is a pure function of its inputs.
-/

/-- JavaScript `a || b` on possibly-absent strings: `a` wins unless it is
absent (`undefined`/`null`) or the empty string (falsy). -/
def jsOrStr (a b : Option String) : Option String :=
  match a with
  | some s => if s = "" then b else some s
  | none => b

/-- JavaScript `a || d` where `d` is a non-empty default string. -/
def jsOrDefault (a : Option String) (d : String) : String :=
  match a with
  | some s => if s = "" then d else s
  | none => d

/-- Normalise a possibly-absent string by JS truthiness: `formData.customerPhone || null`. -/
def truthyStr (a : Option String) : Option String :=
  match a with
  | some s => if s = "" then none else some s
  | none => none

/-- The three localStorage keys the API client uses:
`access_token`, `refresh_token`, `user`. -/
structure Storage where
  access_token : Option String
  refresh_token : Option String
  user : Option String
  deriving DecidableEq, Repr

/-- `getToken`: read the stored access token. -/
def getToken (s : Storage) : Option String := s.access_token

/-- `setTokens(accessToken, refreshToken)`: always store the access token;
store the refresh token only when it is truthy. -/
def setTokens (accessToken : String) (refreshToken : Option String) (s : Storage) : Storage :=
  let s1 : Storage := { s with access_token := some accessToken }
  match refreshToken with
  | some r => if r = "" then s1 else { s1 with refresh_token := some r }
  | none => s1

/-- `clearTokens()`: remove `access_token`, `refresh_token` and `user`. -/
def clearTokens (_s : Storage) : Storage :=
  { access_token := none, refresh_token := none, user := none }

/-- An HTTP response as the client observes it: status code, `ok` flag and
parsed JSON body (type `β` differs per endpoint). -/
structure Resp (β : Type) where
  status : Nat
  ok : Bool
  json : β
  deriving DecidableEq, Repr

/-- Response of `POST /auth/refresh` as used by `refreshAccessToken`:
the `ok` flag (a thrown network error is modelled as `ok := false`, matching
the `catch` that returns `false`) and the `access_token` field of its body. -/
structure RefreshResp where
  ok : Bool
  access_token : String
  deriving DecidableEq, Repr

/-- The `options` argument of `apiRequest`: HTTP method (fetch defaults to
GET) and optional body. -/
structure FetchOptions where
  method : String
  body : Option String
  deriving DecidableEq, Repr

def getOptions : FetchOptions := { method := "GET", body := none }

def postOptions (body : String) : FetchOptions := { method := "POST", body := some body }

/-- One `fetch` call issued by `apiRequest`: endpoint, method,
and `Authorization` header (absent when no token is stored). -/
structure FetchCall where
  endpoint : String
  method : String
  auth : Option String
  deriving DecidableEq, Repr

/-- The network environment of one `apiRequest` call: what the server answers
for the data fetch (as a function of the Authorization header sent) and for
the refresh endpoint (as a function of the refresh token sent). -/
structure ApiEnv (β : Type) where
  fetch : Option String → Resp β
  refreshFetch : String → RefreshResp

/-- Everything observable about one `apiRequest` call: the value it returns
or the message it throws, the localStorage afterwards, a `window.location`
navigation if any, the data fetches issued and the refresh calls issued. -/
structure ApiOutcome (β : Type) where
  result : Except String (Resp β)
  store : Storage
  navigatedTo : Option String
  trace : List FetchCall
  refreshCalls : List String

/-- `refreshAccessToken(refreshToken)`: on an ok response store the new
access token and report success, otherwise report failure. -/
def refreshAccessToken (resp : RefreshResp) (s : Storage) : Bool × Storage :=
  if resp.ok then (true, { s with access_token := some resp.access_token })
  else (false, s)

/-- The Authorization header of the initial `apiRequest` fetch: `if (token)`
attaches the header only when the stored token is truthy (present and
non-empty). -/
def bearerOf (token : Option String) : Option String :=
  (truthyStr token).map (fun t => "Bearer " ++ t)

/-- `apiRequest(endpoint, options)`: fetch with bearer-token injection; on a
401, read the stored refresh token and, when it is truthy
(`if (refreshToken)` — absent and empty are both falsy), call the refresh
endpoint once and retry the original request once, the retry header set
unconditionally from the newly stored access token; if no truthy refresh
token is stored or the refresh fails, clear tokens, navigate to `/login` and
throw `Session expired`. -/
def apiRequest {β : Type} (endpoint : String) (options : FetchOptions)
    (env : ApiEnv β) (st : Storage) : ApiOutcome β :=
  let token := getToken st
  let auth := bearerOf token
  let response := env.fetch auth
  let firstCall : FetchCall := ⟨endpoint, options.method, auth⟩
  if response.status = 401 then
    match truthyStr st.refresh_token with
    | some refreshToken =>
      let rresp := env.refreshFetch refreshToken
      let (ok, st1) := refreshAccessToken rresp st
      if ok then
        let auth2 := (getToken st1).map (fun t => "Bearer " ++ t)
        let retryResp := env.fetch auth2
        { result := .ok retryResp, store := st1, navigatedTo := none,
          trace := [firstCall, ⟨endpoint, options.method, auth2⟩],
          refreshCalls := [refreshToken] }
      else
        { result := .error "Session expired", store := clearTokens st1,
          navigatedTo := some "/login", trace := [firstCall],
          refreshCalls := [refreshToken] }
    | none =>
      { result := .error "Session expired", store := clearTokens st,
        navigatedTo := some "/login", trace := [firstCall], refreshCalls := [] }
  else
    { result := .ok response, store := st, navigatedTo := none,
      trace := [firstCall], refreshCalls := [] }

/-- The `{ ok: response.ok, data: await response.json() }` object every
receipts/notifications method returns. -/
structure ApiOk (β : Type) where
  ok : Bool
  data : β
  deriving DecidableEq, Repr

/-- Wrap an `apiRequest` outcome the way every method does; an exception
thrown by `apiRequest` propagates. -/
def wrapJson {β : Type} (o : ApiOutcome β) : Except String (ApiOk β) :=
  o.result.map (fun r => { ok := r.ok, data := r.json })

/-- An endpoint method: one `apiRequest` call followed by the
`{ ok, data }` wrap; the outcome is kept alongside for observation. -/
def apiCallJson {β : Type} (endpoint : String) (options : FetchOptions)
    (env : ApiEnv β) (st : Storage) : ApiOutcome β × Except String (ApiOk β) :=
  let o := apiRequest endpoint options env st
  (o, wrapJson o)

def putOptions (body : String) : FetchOptions := { method := "PUT", body := some body }

def deleteOptions : FetchOptions := { method := "DELETE", body := none }

/-- Render a JSON object from string fields, as `JSON.stringify` would. -/
def jsonObjStr (fields : List (String × String)) : String :=
  "\x7b" ++ String.intercalate ","
    (fields.map (fun f => "\x22" ++ f.1 ++ "\x22:\x22" ++ f.2 ++ "\x22")) ++ "\x7d"

/-- The `URLSearchParams` content built by `receiptsAPI.getAll`: always
`page` and `per_page`; `search` and `status` appended only when truthy. -/
def getAllParams (page perPage : Nat) (search status : String) : List (String × String) :=
  let params := [("page", toString page), ("per_page", toString perPage)]
  let params := if search = "" then params else params ++ [("search", search)]
  if status = "" then params else params ++ [("status", status)]

/-- `URLSearchParams.toString()` (percent-encoding elided). -/
def renderQuery (params : List (String × String)) : String :=
  String.intercalate "&" (params.map (fun p => p.1 ++ "=" ++ p.2))

namespace receiptsAPI

/-- `receiptsAPI.create(receiptData)`. -/
def create {β : Type} (receiptData : String) (env : ApiEnv β) (st : Storage) :
    ApiOutcome β × Except String (ApiOk β) :=
  apiCallJson "/receipts" (postOptions receiptData) env st

/-- `receiptsAPI.getAll(page, perPage, search, status)`. -/
def getAll {β : Type} (page perPage : Nat) (search status : String)
    (env : ApiEnv β) (st : Storage) : ApiOutcome β × Except String (ApiOk β) :=
  apiCallJson ("/receipts?" ++ renderQuery (getAllParams page perPage search status))
    getOptions env st

/-- `receiptsAPI.getAll()` with the declared argument defaults (1, 20, '', ''). -/
def getAllDefaults {β : Type} (env : ApiEnv β) (st : Storage) :
    ApiOutcome β × Except String (ApiOk β) :=
  getAll 1 20 "" "" env st

/-- `receiptsAPI.getById(id)`. -/
def getById {β : Type} (id : String) (env : ApiEnv β) (st : Storage) :
    ApiOutcome β × Except String (ApiOk β) :=
  apiCallJson ("/receipts/" ++ id) getOptions env st

/-- `receiptsAPI.update(id, receiptData)`. -/
def update {β : Type} (id receiptData : String) (env : ApiEnv β) (st : Storage) :
    ApiOutcome β × Except String (ApiOk β) :=
  apiCallJson ("/receipts/" ++ id) (putOptions receiptData) env st

/-- `receiptsAPI.delete(id)`. -/
def deleteReceipt {β : Type} (id : String) (env : ApiEnv β) (st : Storage) :
    ApiOutcome β × Except String (ApiOk β) :=
  apiCallJson ("/receipts/" ++ id) deleteOptions env st

/-- `receiptsAPI.getStats()`. -/
def getStats {β : Type} (env : ApiEnv β) (st : Storage) :
    ApiOutcome β × Except String (ApiOk β) :=
  apiCallJson "/receipts/stats" getOptions env st

end receiptsAPI

namespace notificationsAPI

/-- `const body = email ? { email } : {}`. -/
def optFieldBody (key : String) (value : Option String) : String :=
  match truthyStr value with
  | some v => jsonObjStr [(key, v)]
  | none => jsonObjStr []

/-- `notificationsAPI.sendEmail(receiptId, email)`. -/
def sendEmail {β : Type} (receiptId : String) (email : Option String)
    (env : ApiEnv β) (st : Storage) : ApiOutcome β × Except String (ApiOk β) :=
  apiCallJson ("/notifications/send-email/" ++ receiptId)
    (postOptions (optFieldBody "email" email)) env st

/-- `notificationsAPI.sendSMS(receiptId, phone)`. -/
def sendSMS {β : Type} (receiptId : String) (phone : Option String)
    (env : ApiEnv β) (st : Storage) : ApiOutcome β × Except String (ApiOk β) :=
  apiCallJson ("/notifications/send-sms/" ++ receiptId)
    (postOptions (optFieldBody "phone" phone)) env st

/-- `notificationsAPI.sendBoth(receiptId, email, phone)`: the body holds
`email` and `phone` only when truthy. -/
def sendBoth {β : Type} (receiptId : String) (email phone : Option String)
    (env : ApiEnv β) (st : Storage) : ApiOutcome β × Except String (ApiOk β) :=
  let fields :=
    (match truthyStr email with | some e => [("email", e)] | none => []) ++
    (match truthyStr phone with | some p => [("phone", p)] | none => [])
  apiCallJson ("/notifications/send-both/" ++ receiptId)
    (postOptions (jsonObjStr fields)) env st

/-- `notificationsAPI.testEmail(email)`. -/
def testEmail {β : Type} (email : String) (env : ApiEnv β) (st : Storage) :
    ApiOutcome β × Except String (ApiOk β) :=
  apiCallJson "/notifications/test-email" (postOptions (jsonObjStr [("email", email)])) env st

/-- `notificationsAPI.testSMS(phone)`. -/
def testSMS {β : Type} (phone : String) (env : ApiEnv β) (st : Storage) :
    ApiOutcome β × Except String (ApiOk β) :=
  apiCallJson "/notifications/test-sms" (postOptions (jsonObjStr [("phone", phone)])) env st

/-- `notificationsAPI.getConfig()`. -/
def getConfig {β : Type} (env : ApiEnv β) (st : Storage) :
    ApiOutcome β × Except String (ApiOk β) :=
  apiCallJson "/notifications/config" getOptions env st

end notificationsAPI

/-- Parsed body of an `/auth/login` or `/auth/register` response: the token
pair, the user object (kept in serialized form) and an optional error field. -/
structure AuthData where
  access_token : String
  refresh_token : Option String
  user : String
  error : Option String
  deriving DecidableEq, Repr

/-- An auth endpoint response: `ok` flag plus parsed body. -/
structure AuthResp where
  ok : Bool
  data : AuthData
  deriving DecidableEq, Repr

namespace authAPI

/-- `authAPI.login(email, password)`: a plain fetch (no `apiRequest`); on an
ok response store the tokens and the serialized user, then return
`{ ok, data }`; on a not-ok response return `{ ok: false, data }` without
touching storage. -/
def login (_email _password : String) (resp : AuthResp) (st : Storage) :
    Storage × ApiOk AuthData :=
  let st1 :=
    if resp.ok then
      { setTokens resp.data.access_token resp.data.refresh_token st with
        user := some resp.data.user }
    else st
  (st1, { ok := resp.ok, data := resp.data })

/-- `authAPI.register(userData)`: same shape as `login`. -/
def register (_userData : String) (resp : AuthResp) (st : Storage) :
    Storage × ApiOk AuthData :=
  let st1 :=
    if resp.ok then
      { setTokens resp.data.access_token resp.data.refresh_token st with
        user := some resp.data.user }
    else st
  (st1, { ok := resp.ok, data := resp.data })

/-- `authAPI.logout()`. -/
def logout (st : Storage) : Storage := clearTokens st

/-- `authAPI.isAuthenticated()`: `!!getToken()`. -/
def isAuthenticated (st : Storage) : Bool := (getToken st).isSome

/-- `authAPI.getUser()`: the stored serialized user, if any. -/
def getUser (st : Storage) : Option String := st.user

end authAPI

/-- One line item of the receipt form: `{ id, name, quantity, price }`.
JS numbers are modelled as rationals. -/
structure Item where
  id : Nat
  name : String
  quantity : ℚ
  price : ℚ
  deriving DecidableEq, Repr

/-- The `ReceiptForm` component state. -/
structure FormState where
  customerName : String
  customerEmail : String
  transactionDate : String
  items : List Item
  taxRate : ℚ
  nextId : Nat
  deriving DecidableEq, Repr

/-- The initial form state: one blank item with id 1, tax rate 10, nextId 2. -/
def initialForm : FormState :=
  { customerName := "", customerEmail := "", transactionDate := "",
    items := [{ id := 1, name := "", quantity := 1, price := 0 }],
    taxRate := 10, nextId := 2 }

/-- `subtotal = items.reduce((sum, item) => sum + item.quantity * item.price, 0)`. -/
def subtotal (items : List Item) : ℚ :=
  items.foldl (fun sum item => sum + item.quantity * item.price) 0

/-- `tax = (subtotal * taxRate) / 100`. -/
def taxOf (items : List Item) (taxRate : ℚ) : ℚ := subtotal items * taxRate / 100

/-- `total = subtotal + tax`. -/
def totalOf (items : List Item) (taxRate : ℚ) : ℚ := subtotal items + taxOf items taxRate

/-- `handleAddItem`: append a blank item carrying `nextId`, bump `nextId`. -/
def handleAddItem (s : FormState) : FormState :=
  { s with items := s.items ++ [{ id := s.nextId, name := "", quantity := 1, price := 0 }],
           nextId := s.nextId + 1 }

/-- `handleRemoveItem(id)`: filter the item out, but only when more than one
item is present. -/
def handleRemoveItem (id : Nat) (s : FormState) : FormState :=
  if s.items.length > 1 then
    { s with items := s.items.filter (fun item => item.id ≠ id) }
  else s

/-- The fields `handleUpdateItem` is invoked with from the item inputs. -/
inductive ItemField
  | name (v : String)
  | quantity (v : ℚ)
  | price (v : ℚ)
  deriving DecidableEq, Repr

/-- `handleUpdateItem(id, field, value)`: map over the items, replacing the
named field on the item with the matching id. -/
def handleUpdateItem (id : Nat) (field : ItemField) (s : FormState) : FormState :=
  { s with items := s.items.map (fun item =>
      if item.id = id then
        match field with
        | .name v => { item with name := v }
        | .quantity v => { item with quantity := v }
        | .price v => { item with price := v }
      else item) }

/-- The object `handleSubmit` passes to `onSubmit`. `customerPhone` is not
among the form's fields, so the property is absent (`none`) on every receipt
the form submits; it is kept because `handleSendReceipt` reads it. -/
structure SubmittedReceipt where
  customerName : String
  customerEmail : String
  customerPhone : Option String
  transactionDate : String
  items : List Item
  subtotal : ℚ
  tax : ℚ
  total : ℚ
  taxRate : ℚ
  deriving DecidableEq, Repr

/-- `handleSubmit` validation and payload: `none` when an alert fires
(missing customer details, or some item with a blank name or
non-positive price); otherwise the submitted object. -/
def submitForm (s : FormState) : Option SubmittedReceipt :=
  if s.customerName = "" ∨ s.customerEmail = "" ∨ s.transactionDate = "" then none
  else if s.items.any (fun item => item.name = "" ∨ item.price ≤ 0) then none
  else some
    { customerName := s.customerName, customerEmail := s.customerEmail,
      customerPhone := none, transactionDate := s.transactionDate,
      items := s.items, subtotal := subtotal s.items,
      tax := taxOf s.items s.taxRate, total := totalOf s.items s.taxRate,
      taxRate := s.taxRate }

/-- The reset at the end of a successful `handleSubmit`: customer fields,
items and `nextId` return to their initial values; `taxRate` is kept. -/
def resetAfterSubmit (s : FormState) : FormState :=
  { s with customerName := "", customerEmail := "", transactionDate := "",
           items := [{ id := 1, name := "", quantity := 1, price := 0 }],
           nextId := 2 }

/-- The user interactions that change the form state. -/
inductive FormEvent
  | addItem
  | removeItem (id : Nat)
  | updateItem (id : Nat) (field : ItemField)
  | setCustomerName (v : String)
  | setCustomerEmail (v : String)
  | setTransactionDate (v : String)
  | setTaxRate (v : ℚ)
  | submit
  deriving Repr

/-- One step of the form: a submit that passes validation resets the form,
a failing one leaves it unchanged. -/
def formStep (s : FormState) : FormEvent → FormState
  | .addItem => handleAddItem s
  | .removeItem id => handleRemoveItem id s
  | .updateItem id field => handleUpdateItem id field s
  | .setCustomerName v => { s with customerName := v }
  | .setCustomerEmail v => { s with customerEmail := v }
  | .setTransactionDate v => { s with transactionDate := v }
  | .setTaxRate v => { s with taxRate := v }
  | .submit => match submitForm s with
    | some _ => resetAfterSubmit s
    | none => s

/-- The form state after a sequence of interactions from the initial state. -/
def runForm (events : List FormEvent) : FormState :=
  events.foldl formStep initialForm

/-- Response of `notificationsAPI.getConfig()` as `checkNotificationConfig`
reads it: the `ok` flag, `config.email?.configured` and
`config.sms?.configured` (an absent section reads as not configured), and a
`threw` flag for a request that raised (caught by the `try`). -/
structure ConfigResp where
  threw : Bool
  ok : Bool
  emailConfigured : Bool
  smsConfigured : Bool
  deriving DecidableEq, Repr

/-- The value `checkNotificationConfig` resolves with. -/
inductive ConfigCheck
  | errorResult (message : String)
  | warningResult (message : String)
  | nullResult
  deriving DecidableEq, Repr

/-- `checkNotificationConfig()`: error when neither service is configured,
warning when email is not; `null` otherwise, on a not-ok response, or when
the request throws. -/
def checkNotificationConfig (r : ConfigResp) : ConfigCheck :=
  if r.threw then .nullResult
  else if r.ok then
    if ¬r.emailConfigured ∧ ¬r.smsConfigured then
      .errorResult "Email and SMS services are not configured. Please configure at least one service in your backend environment variables."
    else if ¬r.emailConfigured then
      .warningResult "Email service is not configured. Only SMS will be sent if phone number is available."
    else .nullResult
  else .nullResult

/-- The `formData` value stored by `handleCreateReceipt`: the submitted form
data spread together with the generated receipt number, timestamp and
status. -/
structure PreviewData where
  submitted : SubmittedReceipt
  receiptNumber : String
  timestamp : Nat
  status : String
  deriving DecidableEq, Repr

/-- The backend calls `handleSendReceipt` can issue, in order. -/
inductive DashCall
  | getConfigCall
  | createReceiptCall
  | sendBothCall
  | sendEmailCall
  | loadReceiptsCall
  deriving DecidableEq, Repr

/-- The state written by `handleCreateReceipt`, together with the list of
backend calls the handler makes (there are none: it only stores the preview
data and opens the preview). -/
structure CreateOutcome where
  formData : Option PreviewData
  showPreview : Bool
  apiCalls : List DashCall
  deriving DecidableEq, Repr

/-- `handleCreateReceipt(data)`: generate `REC-<Date.now()>`, store the
preview data with status `Not Sent`, show the preview; no backend request. -/
def handleCreateReceipt (now : Nat) (data : SubmittedReceipt) : CreateOutcome :=
  { formData := some
      { submitted := data, receiptNumber := "REC-" ++ toString now,
        timestamp := now, status := "Not Sent" },
    showPreview := true,
    apiCalls := [] }

/-- Body of the `receiptsAPI.create` response as `handleSendReceipt` reads
it: `data.error`, and `data.receipt?.id` / `data.receipt?._id`. -/
structure CreateReceiptObj where
  id : Option String
  mongoId : Option String
  deriving DecidableEq, Repr

structure CreateResp where
  ok : Bool
  receipt : Option CreateReceiptObj
  error : Option String
  deriving DecidableEq, Repr

/-- `createResponse.data.receipt?.id || createResponse.data.receipt?._id`. -/
def receiptIdOf (r : CreateResp) : Option String :=
  jsOrStr (r.receipt.bind (fun o => o.id)) (r.receipt.bind (fun o => o.mongoId))

/-- Body fields of the `sendBoth` response used by the handler:
`results?.email?.sent`, `results?.sms?.sent` and the per-channel messages. -/
structure BothResults where
  emailSent : Option Bool
  smsSent : Option Bool
  emailMessage : Option String
  smsMessage : Option String
  deriving DecidableEq, Repr

structure BothResp where
  ok : Bool
  results : BothResults
  deriving DecidableEq, Repr

/-- `sendEmail` response as the handler reads it: `ok`, `data.success`,
`data.error`. -/
structure EmailResp where
  ok : Bool
  success : Bool
  error : Option String
  deriving DecidableEq, Repr

/-- The backend responses one run of `handleSendReceipt` may consume. -/
structure DashEnv where
  configResp : ConfigResp
  createResp : CreateResp
  sendBothResp : BothResp
  sendEmailResp : EmailResp
  deriving DecidableEq, Repr

/-- Observable result of `handleSendReceipt`: the backend calls issued in
order, the toast text finally shown, the email/SMS sent flags, and whether
the success path reset the preview (`setShowPreview(false)`,
`setFormData(null)`). -/
structure SendOutcome where
  calls : List DashCall
  toast : String
  emailSent : Bool
  smsSent : Bool
  resetDone : Bool
  deriving DecidableEq, Repr

/-- The toast written by the `catch` block: `✗ Error: <message>`. Every
message thrown in the handler is non-empty, so the `|| "Failed to send
receipt"` default never fires. -/
def errToast (message : String) : String := "✗ Error: " ++ message

/-- The notification phase of `handleSendReceipt` (Step 2 in src/App.jsx):
when a phone number is present, try the combined email+SMS endpoint and fall
back to email-only exactly when that call is not ok; with no phone, email
only. The `calls` list holds only this phase's backend calls. -/
def sendNotifications (customer_email : String) (customer_phone : Option String)
    (env : DashEnv) : SendOutcome :=
  match customer_phone with
  | some _ =>
    let r := env.sendBothResp
    if r.ok then
      let emailSent := r.results.emailSent.getD false
      let smsSent := r.results.smsSent.getD false
      if emailSent ∧ smsSent then
        { calls := [.sendBothCall, .loadReceiptsCall],
          toast := "✓ Receipt sent via email and SMS to " ++ customer_email,
          emailSent := true, smsSent := true, resetDone := true }
      else if emailSent then
        { calls := [.sendBothCall, .loadReceiptsCall],
          toast := "✓ Receipt sent via email to " ++ customer_email ++
            " (SMS failed: " ++ jsOrDefault r.results.smsMessage "Unknown error" ++ ")",
          emailSent := true, smsSent := false, resetDone := true }
      else if smsSent then
        { calls := [.sendBothCall, .loadReceiptsCall],
          toast := "✓ Receipt sent via SMS (Email failed: " ++
            jsOrDefault r.results.emailMessage "Unknown error" ++ ")",
          emailSent := false, smsSent := true, resetDone := true }
      else
        { calls := [.sendBothCall],
          toast := errToast ("Failed to send: " ++
            jsOrDefault r.results.emailMessage "Unknown error"),
          emailSent := false, smsSent := false, resetDone := false }
    else
      let e := env.sendEmailResp
      if e.ok ∧ e.success then
        { calls := [.sendBothCall, .sendEmailCall, .loadReceiptsCall],
          toast := "✓ Receipt sent via email to " ++ customer_email,
          emailSent := true, smsSent := false, resetDone := true }
      else
        { calls := [.sendBothCall, .sendEmailCall],
          toast := errToast (jsOrDefault e.error "Failed to send receipt"),
          emailSent := false, smsSent := false, resetDone := false }
  | none =>
    let e := env.sendEmailResp
    if e.ok ∧ e.success then
      { calls := [.sendEmailCall, .loadReceiptsCall],
        toast := "✓ Receipt sent via email to " ++ customer_email,
        emailSent := true, smsSent := false, resetDone := true }
    else
      { calls := [.sendEmailCall],
        toast := errToast (jsOrDefault e.error "Failed to send email"),
        emailSent := false, smsSent := false, resetDone := false }

/-- `handleSendReceipt()`: config check, receipt creation, then the
notification phase, mirroring src/App.jsx lines 97-206. -/
def handleSendReceipt (formData : Option PreviewData) (env : DashEnv) : SendOutcome :=
  match formData with
  | none => { calls := [], toast := "", emailSent := false, smsSent := false, resetDone := false }
  | some fd =>
    match checkNotificationConfig env.configResp with
    | .errorResult msg =>
      { calls := [.getConfigCall], toast := errToast msg,
        emailSent := false, smsSent := false, resetDone := false }
    | _ =>
      if ¬env.createResp.ok then
        { calls := [.getConfigCall, .createReceiptCall],
          toast := errToast (jsOrDefault env.createResp.error "Failed to create receipt"),
          emailSent := false, smsSent := false, resetDone := false }
      else match truthyStr (receiptIdOf env.createResp) with
      | none =>
        { calls := [.getConfigCall, .createReceiptCall],
          toast := errToast "Failed to get receipt ID from response",
          emailSent := false, smsSent := false, resetDone := false }
      | some _ =>
        let n := sendNotifications fd.submitted.customerEmail
          (truthyStr fd.submitted.customerPhone) env
        { n with calls := [.getConfigCall, .createReceiptCall] ++ n.calls }

/-- What the `ProtectedRoute` component renders. -/
inductive RenderResult
  | spinner
  | redirectToLogin
  | childContent
  deriving DecidableEq, Repr

/-- `ProtectedRoute`: spinner while loading, `<Navigate to="/login" />` when
not authenticated, otherwise the children. -/
def ProtectedRoute (loading : Bool) (isAuthenticated : Bool) : RenderResult :=
  if loading then .spinner
  else if ¬isAuthenticated then .redirectToLogin
  else .childContent

/-- The `isAuthenticated` value the `AuthProvider` exposes: `!!user`. -/
def authIsAuthenticated (user : Option String) : Bool := user.isSome

/-- C1: on a 401 response, if a refresh token is stored (truthy, i.e. a
non-empty string — the source's `if (refreshToken)`) the refresh endpoint is
called exactly once, and when the refresh succeeds the original request is
retried exactly once with the newly stored access token and its response
returned; when no refresh token is stored (absent or empty string), or the
refresh call fails, all stored tokens and the cached user are cleared, the
browser navigates to `/login`, and the call throws `Session expired`. -/
theorem apiRequest_401_refresh_flow {β : Type} (endpoint : String) (options : FetchOptions)
    (env : ApiEnv β) (st : Storage)
    (h401 : (env.fetch (bearerOf st.access_token)).status = 401) :
    (∀ rt, st.refresh_token = some rt → rt ≠ "" →
      (apiRequest endpoint options env st).refreshCalls = [rt] ∧
      ((env.refreshFetch rt).ok = true →
        (apiRequest endpoint options env st).store.access_token =
          some (env.refreshFetch rt).access_token ∧
        (apiRequest endpoint options env st).trace =
          [⟨endpoint, options.method, bearerOf st.access_token⟩,
           ⟨endpoint, options.method, some ("Bearer " ++ (env.refreshFetch rt).access_token)⟩] ∧
        (apiRequest endpoint options env st).result =
          .ok (env.fetch (some ("Bearer " ++ (env.refreshFetch rt).access_token))) ∧
        (apiRequest endpoint options env st).navigatedTo = none) ∧
      ((env.refreshFetch rt).ok = false →
        (apiRequest endpoint options env st).store =
          { access_token := none, refresh_token := none, user := none } ∧
        (apiRequest endpoint options env st).navigatedTo = some "/login" ∧
        (apiRequest endpoint options env st).result = .error "Session expired" ∧
        (apiRequest endpoint options env st).trace =
          [⟨endpoint, options.method, bearerOf st.access_token⟩])) ∧
    (truthyStr st.refresh_token = none →
      (apiRequest endpoint options env st).refreshCalls = [] ∧
      (apiRequest endpoint options env st).store =
        { access_token := none, refresh_token := none, user := none } ∧
      (apiRequest endpoint options env st).navigatedTo = some "/login" ∧
      (apiRequest endpoint options env st).result = .error "Session expired") := by
  refine ⟨fun rt hrt hne => ⟨?_, fun hok => ?_, fun hok => ?_⟩, fun hrt => ?_⟩
  · cases hok : (env.refreshFetch rt).ok <;>
      simp [apiRequest, getToken, truthyStr, refreshAccessToken, clearTokens,
        h401, hrt, hne, hok]
  · simp [apiRequest, getToken, truthyStr, refreshAccessToken, clearTokens,
      h401, hrt, hne, hok]
  · simp [apiRequest, getToken, truthyStr, refreshAccessToken, clearTokens,
      h401, hrt, hne, hok]
  · simp [apiRequest, getToken, refreshAccessToken, clearTokens, h401, hrt]

/-- Concrete network for the C1 witness: the stored token gets a 401, the
refresh endpoint issues `newTok`, and a request bearing `newTok` succeeds. -/
def c1Env : ApiEnv Nat :=
  { fetch := fun auth => if auth = some "Bearer newTok" then ⟨200, true, 5⟩ else ⟨401, false, 0⟩,
    refreshFetch := fun rt => if rt = "r0" then ⟨true, "newTok"⟩ else ⟨false, ""⟩ }

def c1St : Storage :=
  { access_token := some "oldTok", refresh_token := some "r0", user := some "u" }

/-- C1 witness: the refresh-success path at a concrete 401 environment. -/
theorem apiRequest_401_refresh_flow_witness :
    (apiRequest "/receipts" getOptions c1Env c1St).refreshCalls = ["r0"] ∧
    (apiRequest "/receipts" getOptions c1Env c1St).store.access_token =
      some (c1Env.refreshFetch "r0").access_token ∧
    (apiRequest "/receipts" getOptions c1Env c1St).trace =
      [⟨"/receipts", "GET", bearerOf c1St.access_token⟩,
       ⟨"/receipts", "GET", some ("Bearer " ++ (c1Env.refreshFetch "r0").access_token)⟩] := by
  obtain ⟨h1, -⟩ := apiRequest_401_refresh_flow "/receipts" getOptions c1Env c1St (by decide)
  obtain ⟨ha, hb, -⟩ := h1 "r0" rfl (by decide)
  obtain ⟨hs, ht, -, -⟩ := hb (by decide)
  exact ⟨ha, hs, ht⟩

/-- Folding `sum + quantity * price` from `a` equals `a` plus the sum of the
per-item products. -/
theorem foldl_items_sum (l : List Item) (a : ℚ) :
    l.foldl (fun sum item => sum + item.quantity * item.price) a =
      a + (l.map (fun item => item.quantity * item.price)).sum := by
  induction l generalizing a with
  | nil => simp
  | cons x xs ih => simp [ih, add_assoc]

/-- C2: the form's subtotal is the sum of quantity×price over the items, the
tax is subtotal×taxRate/100, the total is subtotal+tax, and every receipt
object the form submits satisfies total = subtotal + tax and
subtotal = Σ quantity×price. -/
theorem receiptForm_totals (s : FormState) :
    subtotal s.items = (s.items.map (fun item => item.quantity * item.price)).sum ∧
    taxOf s.items s.taxRate = subtotal s.items * s.taxRate / 100 ∧
    totalOf s.items s.taxRate = subtotal s.items + taxOf s.items s.taxRate ∧
    ∀ r, submitForm s = some r →
      r.total = r.subtotal + r.tax ∧
      r.subtotal = (r.items.map (fun item => item.quantity * item.price)).sum := by
  refine ⟨by simpa using foldl_items_sum s.items 0, rfl, rfl, fun r hr => ?_⟩
  unfold submitForm at hr
  split_ifs at hr
  all_goals first
    | exact Option.noConfusion hr
    | · obtain rfl := Option.some.inj hr
        exact ⟨rfl, by simpa using foldl_items_sum s.items 0⟩

/-- A filled-in form state for the C2 witness. -/
def c2State : FormState :=
  { customerName := "Ada", customerEmail := "ada@shop.io", transactionDate := "2024-01-01",
    items := [{ id := 1, name := "Pen", quantity := 2, price := 3 },
              { id := 2, name := "Ink", quantity := 1, price := 4 }],
    taxRate := 10, nextId := 3 }

/-- The receipt `c2State` submits. -/
def c2Receipt : SubmittedReceipt :=
  { customerName := "Ada", customerEmail := "ada@shop.io", customerPhone := none,
    transactionDate := "2024-01-01",
    items := [{ id := 1, name := "Pen", quantity := 2, price := 3 },
              { id := 2, name := "Ink", quantity := 1, price := 4 }],
    subtotal := 10, tax := 1, total := 11, taxRate := 10 }

/-- C2 witness: a concrete submission with subtotal 10, tax 1, total 11. -/
theorem receiptForm_totals_witness :
    submitForm c2State = some c2Receipt ∧
    (c2Receipt.total = c2Receipt.subtotal + c2Receipt.tax ∧
      c2Receipt.subtotal =
        (c2Receipt.items.map (fun item => item.quantity * item.price)).sum) := by
  have h : submitForm c2State = some c2Receipt := by
    simp [submitForm, c2State, c2Receipt, subtotal, taxOf, totalOf]
    norm_num
  exact ⟨h, (receiptForm_totals c2State).2.2.2 c2Receipt h⟩

/-- C5: for every dashboard receipt composition, the client generates the
receipt number as `REC-` followed by the current timestamp, and it is already
part of the stored form data when the preview is shown. -/
theorem handleCreateReceipt_receiptNumber (now : Nat) (data : SubmittedReceipt) :
    ((handleCreateReceipt now data).formData.map PreviewData.receiptNumber) =
      some ("REC-" ++ toString now) ∧
    (handleCreateReceipt now data).showPreview = true ∧
    ((handleCreateReceipt now data).formData.map PreviewData.status) = some "Not Sent" :=
  ⟨rfl, rfl, rfl⟩

/-- C6: the protected route renders the spinner while the auth context is
loading, redirects to `/login` when loading is done and no user is
authenticated, and renders the children otherwise. -/
theorem protectedRoute_gating (loading : Bool) (user : Option String) :
    ProtectedRoute loading (authIsAuthenticated user) =
      (if loading then .spinner
       else match user with
       | none => .redirectToLogin
       | some _ => .childContent) := by
  cases loading <;> cases user <;> rfl

/-- C10: `authAPI.login` and `authAPI.register` write the access token, the
refresh token (when the body carries a truthy one) and the serialized user to
storage exactly when the response is ok; on a not-ok response storage is
untouched and `{ ok: false, data }` is returned instead of a throw. -/
theorem authAPI_login_register_storage (email password userData : String)
    (resp : AuthResp) (st : Storage) :
    (resp.ok = false →
      (authAPI.login email password resp st).1 = st ∧
      (authAPI.login email password resp st).2 = { ok := false, data := resp.data } ∧
      (authAPI.register userData resp st).1 = st ∧
      (authAPI.register userData resp st).2 = { ok := false, data := resp.data }) ∧
    (resp.ok = true →
      (authAPI.login email password resp st).1.access_token = some resp.data.access_token ∧
      (authAPI.login email password resp st).1.user = some resp.data.user ∧
      (authAPI.register userData resp st).1.access_token = some resp.data.access_token ∧
      (authAPI.register userData resp st).1.user = some resp.data.user ∧
      (∀ rt, resp.data.refresh_token = some rt → rt ≠ "" →
        (authAPI.login email password resp st).1.refresh_token = some rt ∧
        (authAPI.register userData resp st).1.refresh_token = some rt) ∧
      (authAPI.login email password resp st).2 = { ok := true, data := resp.data } ∧
      (authAPI.register userData resp st).2 = { ok := true, data := resp.data }) := by
  constructor
  · intro hok
    simp [authAPI.login, authAPI.register, hok]
  · intro hok
    refine ⟨?_, ?_, ?_, ?_, fun rt hrt hne => ⟨?_, ?_⟩, ?_, ?_⟩ <;>
      rcases hr2 : resp.data.refresh_token with _ | r2 <;>
        simp_all [authAPI.login, authAPI.register, setTokens, hok, hr2] <;>
          split_ifs <;> simp_all

/-- Concrete ok login response for the C10 witness. -/
def c10Resp : AuthResp :=
  { ok := true,
    data := { access_token := "acc1", refresh_token := some "ref1",
              user := "alice", error := none } }

def c10St : Storage := { access_token := none, refresh_token := none, user := none }

/-- C10 witness: an ok login at a concrete response stores all three values. -/
theorem authAPI_login_register_storage_witness :
    (authAPI.login "e" "p" c10Resp c10St).1.access_token = some "acc1" ∧
    (authAPI.login "e" "p" c10Resp c10St).1.user = some "alice" ∧
    (authAPI.login "e" "p" c10Resp c10St).1.refresh_token = some "ref1" := by
  obtain ⟨-, h⟩ := authAPI_login_register_storage "e" "p" "u" c10Resp c10St
  obtain ⟨h1, h2, -, -, h5, -, -⟩ := h rfl
  exact ⟨h1, h2, (h5 "ref1" rfl (by decide)).1⟩

/-- Invariant of the form state: the items list is non-empty, item ids are
pairwise distinct, and every id is below `nextId`. Distinctness is what makes
`handleRemoveItem`'s filter drop at most one element. -/
def itemsWF (s : FormState) : Prop :=
  s.items ≠ [] ∧ (s.items.map Item.id).Nodup ∧ ∀ item ∈ s.items, item.id < s.nextId

theorem itemsWF_initial : itemsWF initialForm := by
  refine ⟨by simp [initialForm], by simp [initialForm], ?_⟩
  intro item h
  simp only [initialForm, List.mem_singleton] at h
  simp [h, initialForm]

theorem itemsWF_step (s : FormState) (e : FormEvent) (h : itemsWF s) :
    itemsWF (formStep s e) := by
  obtain ⟨hne, hnd, hlt⟩ := h
  cases e with
  | addItem =>
    refine ⟨by simp [formStep, handleAddItem], ?_, ?_⟩
    · simp only [formStep, handleAddItem, List.map_append, List.map_cons, List.map_nil]
      rw [List.nodup_append]
      refine ⟨hnd, List.nodup_singleton _, ?_⟩
      intro a ha hb
      simp only [List.mem_singleton] at hb
      obtain ⟨it, hit, rfl⟩ := List.mem_map.mp ha
      exact absurd (hlt it hit) (by simp [hb])
    · intro item hitem
      simp only [formStep, handleAddItem, List.mem_append, List.mem_singleton] at hitem ⊢
      rcases hitem with h1 | h2
      · exact Nat.lt_succ_of_lt (hlt item h1)
      · simp [h2]
  | removeItem id =>
    show itemsWF (handleRemoveItem id s)
    by_cases hl : s.items.length > 1
    · rw [handleRemoveItem, if_pos hl]
      refine ⟨?_, ?_, ?_⟩
      · show s.items.filter (fun item => item.id ≠ id) ≠ []
        rcases hs : s.items with _ | ⟨a, _ | ⟨b, t⟩⟩
        · rw [hs] at hl; simp at hl
        · rw [hs] at hl; simp at hl
        · rw [hs] at hnd
          simp only [List.map_cons, List.nodup_cons, List.mem_cons, List.mem_map,
            not_or] at hnd
          by_cases haid : a.id = id
          · apply List.ne_nil_of_mem (a := b)
            simp only [List.mem_filter, List.mem_cons, decide_eq_true_eq]
            refine ⟨Or.inr (Or.inl trivial), ?_⟩
            intro hb
            exact hnd.1.1 (by rw [haid, hb])
          · apply List.ne_nil_of_mem (a := a)
            simp only [List.mem_filter, List.mem_cons, decide_eq_true_eq]
            exact ⟨Or.inl trivial, haid⟩
      · show ((s.items.filter (fun item => item.id ≠ id)).map Item.id).Nodup
        exact List.Nodup.sublist (List.Sublist.map Item.id (List.filter_sublist s.items)) hnd
      · intro item hitem
        exact hlt item (List.mem_of_mem_filter hitem)
    · rw [handleRemoveItem, if_neg hl]
      exact ⟨hne, hnd, hlt⟩
  | updateItem id field =>
    have hid : ∀ item : Item,
        ((fun item => if item.id = id then
            match field with
            | .name v => { item with name := v }
            | .quantity v => { item with quantity := v }
            | .price v => { item with price := v }
          else item) item).id = item.id := by
      intro item
      cases field <;> dsimp only <;> split_ifs <;> rfl
    refine ⟨by simp [formStep, handleUpdateItem, hne], ?_, ?_⟩
    · show ((s.items.map _).map Item.id).Nodup
      rw [List.map_map]
      have : s.items.map (Item.id ∘ _) = s.items.map Item.id :=
        List.map_congr_left (fun item _ => hid item)
      rw [this]
      exact hnd
    · intro item hitem
      obtain ⟨x, hx, rfl⟩ := List.mem_map.mp hitem
      show _ < s.nextId
      rw [hid x]
      exact hlt x hx
  | setCustomerName v => exact ⟨hne, hnd, hlt⟩
  | setCustomerEmail v => exact ⟨hne, hnd, hlt⟩
  | setTransactionDate v => exact ⟨hne, hnd, hlt⟩
  | setTaxRate v => exact ⟨hne, hnd, hlt⟩
  | submit =>
    show itemsWF (match submitForm s with
      | some _ => resetAfterSubmit s
      | none => s)
    cases submitForm s with
    | some r => exact ⟨by simp [resetAfterSubmit], by simp [resetAfterSubmit],
        by intro item hitem; simp only [resetAfterSubmit, List.mem_singleton] at hitem
           simp [hitem, resetAfterSubmit]⟩
    | none => exact ⟨hne, hnd, hlt⟩

theorem itemsWF_run (events : List FormEvent) : itemsWF (runForm events) := by
  unfold runForm
  suffices h : ∀ s, itemsWF s → itemsWF (events.foldl formStep s) from
    h initialForm itemsWF_initial
  induction events with
  | nil => intro s hs; exact hs
  | cons e es ih => intro s hs; exact ih _ (itemsWF_step s e hs)

/-- C9: across every sequence of form interactions the items list stays
non-empty (it starts with one item, adding only appends, removal is refused
at one item, and a successful submit resets to a single blank item), so every
receipt the form submits has at least one line item. -/
theorem receiptForm_items_nonempty (events : List FormEvent) :
    (runForm events).items ≠ [] ∧
    ∀ r, submitForm (runForm events) = some r → r.items ≠ [] := by
  have h := itemsWF_run events
  refine ⟨h.1, fun r hr => ?_⟩
  unfold submitForm at hr
  split_ifs at hr
  all_goals first
    | exact Option.noConfusion hr
    | · obtain rfl := Option.some.inj hr
        exact h.1

/-- A concrete interaction sequence for the C9 witness. -/
def c9Events : List FormEvent :=
  [.setCustomerName "Bo", .setCustomerEmail "bo@x.y", .setTransactionDate "2024-02-02",
   .updateItem 1 (.name "Tea"), .updateItem 1 (.price 5)]

def c9Receipt : SubmittedReceipt :=
  { customerName := "Bo", customerEmail := "bo@x.y", customerPhone := none,
    transactionDate := "2024-02-02",
    items := [{ id := 1, name := "Tea", quantity := 1, price := 5 }],
    subtotal := 5, tax := 1/2, total := 11/2, taxRate := 10 }

/-- C9 witness: the concrete sequence submits a receipt with one item. -/
theorem receiptForm_items_nonempty_witness :
    submitForm (runForm c9Events) = some c9Receipt ∧ c9Receipt.items ≠ [] := by
  have h : submitForm (runForm c9Events) = some c9Receipt := by
    simp [runForm, c9Events, formStep, handleUpdateItem, submitForm, subtotal,
      taxOf, totalOf, c9Receipt, initialForm]
    norm_num
  exact ⟨h, (receiptForm_items_nonempty c9Events).2 c9Receipt h⟩

/-- Whether a config check is the error variant (the only one that aborts
`handleSendReceipt` before the create step). -/
def isErrorCheck : ConfigCheck → Bool
  | .errorResult _ => true
  | _ => false

/-- With a phone present, the notification phase always attempts the
combined call first. -/
theorem sendNotifications_phone_first (e p : String) (env : DashEnv) :
    ∃ rest, (sendNotifications e (some p) env).calls = DashCall.sendBothCall :: rest := by
  unfold sendNotifications
  dsimp only
  repeat' split
  all_goals exact ⟨_, rfl⟩

/-- With a phone present, email-only is attempted exactly when the combined
call is not ok. -/
theorem sendNotifications_fallback_iff (e p : String) (env : DashEnv) :
    DashCall.sendEmailCall ∈ (sendNotifications e (some p) env).calls ↔
      env.sendBothResp.ok = false := by
  unfold sendNotifications
  dsimp only
  cases hbok : env.sendBothResp.ok <;> simp only [hbok] <;> split_ifs <;> simp_all

/-- The notification phase never issues config or create calls. -/
theorem sendNotifications_calls_sub (e : String) (p : Option String) (env : DashEnv) :
    DashCall.createReceiptCall ∉ (sendNotifications e p env).calls ∧
    DashCall.getConfigCall ∉ (sendNotifications e p env).calls := by
  unfold sendNotifications
  rcases p with _ | p
  all_goals dsimp only
  all_goals repeat' split
  all_goals simp

/-- When the config check passes, creation succeeds and a receipt id is
returned, `handleSendReceipt` is the two leading backend calls followed by
the notification phase. -/
theorem handleSendReceipt_reduce (fd : PreviewData) (env : DashEnv)
    (hcfg : isErrorCheck (checkNotificationConfig env.configResp) = false)
    (hok : env.createResp.ok = true) (rid : String)
    (hid : truthyStr (receiptIdOf env.createResp) = some rid) :
    handleSendReceipt (some fd) env =
      { sendNotifications fd.submitted.customerEmail
          (truthyStr fd.submitted.customerPhone) env with
        calls := [DashCall.getConfigCall, DashCall.createReceiptCall] ++
          (sendNotifications fd.submitted.customerEmail
            (truthyStr fd.submitted.customerPhone) env).calls } := by
  cases hc : checkNotificationConfig env.configResp with
  | errorResult msg => rw [hc] at hcfg; simp [isErrorCheck] at hcfg
  | warningResult msg => simp [handleSendReceipt, hc, hok, hid]
  | nullResult => simp [handleSendReceipt, hc, hok, hid]

/-- C3: in the dashboard send flow, when the customer phone is present the
combined email+SMS endpoint is attempted first and an email-only send is
attempted if and only if the combined call fails; the toast text is
determined by which channels succeeded; without a phone only the email send
is attempted. -/
theorem dashboard_send_flow (fd : PreviewData) (env : DashEnv)
    (hcfg : isErrorCheck (checkNotificationConfig env.configResp) = false)
    (hok : env.createResp.ok = true)
    (hid : (truthyStr (receiptIdOf env.createResp)).isSome = true) :
    (∀ p, truthyStr fd.submitted.customerPhone = some p →
      (handleSendReceipt (some fd) env).calls.take 3 =
        [DashCall.getConfigCall, DashCall.createReceiptCall, DashCall.sendBothCall] ∧
      (DashCall.sendEmailCall ∈ (handleSendReceipt (some fd) env).calls ↔
        env.sendBothResp.ok = false) ∧
      (env.sendBothResp.ok = true →
        (env.sendBothResp.results.emailSent.getD false = true →
         env.sendBothResp.results.smsSent.getD false = true →
          (handleSendReceipt (some fd) env).toast =
            "✓ Receipt sent via email and SMS to " ++ fd.submitted.customerEmail) ∧
        (env.sendBothResp.results.emailSent.getD false = true →
         env.sendBothResp.results.smsSent.getD false = false →
          (handleSendReceipt (some fd) env).toast =
            "✓ Receipt sent via email to " ++ fd.submitted.customerEmail ++
              " (SMS failed: " ++
              jsOrDefault env.sendBothResp.results.smsMessage "Unknown error" ++ ")") ∧
        (env.sendBothResp.results.emailSent.getD false = false →
         env.sendBothResp.results.smsSent.getD false = true →
          (handleSendReceipt (some fd) env).toast =
            "✓ Receipt sent via SMS (Email failed: " ++
              jsOrDefault env.sendBothResp.results.emailMessage "Unknown error" ++ ")") ∧
        (env.sendBothResp.results.emailSent.getD false = false →
         env.sendBothResp.results.smsSent.getD false = false →
          (handleSendReceipt (some fd) env).toast =
            errToast ("Failed to send: " ++
              jsOrDefault env.sendBothResp.results.emailMessage "Unknown error"))) ∧
      (env.sendBothResp.ok = false →
        env.sendEmailResp.ok = true → env.sendEmailResp.success = true →
        (handleSendReceipt (some fd) env).toast =
          "✓ Receipt sent via email to " ++ fd.submitted.customerEmail)) ∧
    (truthyStr fd.submitted.customerPhone = none →
      (handleSendReceipt (some fd) env).calls =
        [DashCall.getConfigCall, DashCall.createReceiptCall, DashCall.sendEmailCall] ++
          (if env.sendEmailResp.ok = true ∧ env.sendEmailResp.success = true
            then [DashCall.loadReceiptsCall] else []) ∧
      DashCall.sendBothCall ∉ (handleSendReceipt (some fd) env).calls) := by
  obtain ⟨rid, hrid⟩ := Option.isSome_iff_exists.mp hid
  have hred := handleSendReceipt_reduce fd env hcfg hok rid hrid
  constructor
  · intro p hp
    rw [hred, hp]
    refine ⟨?_, ?_, ?_, ?_⟩
    · obtain ⟨rest, hr⟩ :=
        sendNotifications_phone_first fd.submitted.customerEmail p env
      simp [hr]
    · simp [sendNotifications_fallback_iff]
    · intro hbok
      refine ⟨?_, ?_, ?_, ?_⟩ <;> intro hes hss <;>
        simp [sendNotifications, hbok, hes, hss]
    · intro hbok heok hesucc
      simp [sendNotifications, hbok, heok, hesucc]
  · intro hp
    rw [hred, hp]
    constructor
    · by_cases hsucc : env.sendEmailResp.ok = true ∧ env.sendEmailResp.success = true <;>
        simp [sendNotifications, hsucc]
    · by_cases hsucc : env.sendEmailResp.ok = true ∧ env.sendEmailResp.success = true <;>
        simp [sendNotifications, hsucc]

/-- Concrete send-flow input for the C3 witness: phone present, combined
call ok with both channels sent. -/
def c3Phone : PreviewData :=
  { submitted :=
      { customerName := "Cy", customerEmail := "cy@x.y", customerPhone := some "0700",
        transactionDate := "2024-03-03",
        items := [{ id := 1, name := "Mug", quantity := 2, price := 5 }],
        subtotal := 10, tax := 1, total := 11, taxRate := 10 },
    receiptNumber := "REC-1", timestamp := 1, status := "Not Sent" }

def c3Env : DashEnv :=
  { configResp := { threw := false, ok := true, emailConfigured := true, smsConfigured := true },
    createResp :=
      { ok := true, receipt := some { id := some "rid1", mongoId := none }, error := none },
    sendBothResp :=
      { ok := true,
        results :=
          { emailSent := some true, smsSent := some true,
            emailMessage := none, smsMessage := none } },
    sendEmailResp := { ok := true, success := true, error := none } }

/-- C3 witness: with phone present and both channels succeeding, the
combined call comes right after config+create and the toast names both
channels. -/
theorem dashboard_send_flow_witness :
    (handleSendReceipt (some c3Phone) c3Env).calls.take 3 =
      [DashCall.getConfigCall, DashCall.createReceiptCall, DashCall.sendBothCall] ∧
    (handleSendReceipt (some c3Phone) c3Env).toast =
      "✓ Receipt sent via email and SMS to cy@x.y" := by
  obtain ⟨h1, -⟩ := dashboard_send_flow c3Phone c3Env (by decide) (by decide) (by decide)
  obtain ⟨ht, -, hm, -⟩ := h1 "0700" (by decide)
  exact ⟨ht, ((hm rfl).1 rfl rfl).trans rfl⟩

/-- A valid form state and its submitted receipt, for the C4 counterexample. -/
def c4State : FormState :=
  { customerName := "Ann", customerEmail := "ann@x.y", transactionDate := "2024-05-05",
    items := [{ id := 1, name := "Tea", quantity := 2, price := 5 }],
    taxRate := 10, nextId := 2 }

def c4Receipt : SubmittedReceipt :=
  { customerName := "Ann", customerEmail := "ann@x.y", customerPhone := none,
    transactionDate := "2024-05-05",
    items := [{ id := 1, name := "Tea", quantity := 2, price := 5 }],
    subtotal := 10, tax := 1, total := 11, taxRate := 10 }

/-- C4 counterexample: submitting the form (validation passes, the submit
handler runs) does not call the backend create endpoint — the handler only
stores the preview data and opens the preview, so no receipt is persisted at
form-submission time. -/
theorem handleCreateReceipt_no_persistence :
    submitForm c4State = some c4Receipt ∧
    (handleCreateReceipt 1700 c4Receipt).apiCalls = [] ∧
    (handleCreateReceipt 1700 c4Receipt).showPreview = true := by
  refine ⟨?_, rfl, rfl⟩
  simp [submitForm, c4State, c4Receipt, subtotal, taxOf, totalOf]
  norm_num

/-- C4 (amended): the receipt is persisted via the create endpoint when the
user confirms sending from the preview — `handleSendReceipt` with form data
present and a passing config check issues exactly one create call, directly
after the config check. -/
theorem receipt_created_on_send (fd : PreviewData) (env : DashEnv)
    (hcfg : isErrorCheck (checkNotificationConfig env.configResp) = false) :
    (handleSendReceipt (some fd) env).calls.take 2 =
      [DashCall.getConfigCall, DashCall.createReceiptCall] ∧
    (handleSendReceipt (some fd) env).calls.count DashCall.createReceiptCall = 1 := by
  have hshape : ∃ rest, (handleSendReceipt (some fd) env).calls =
      DashCall.getConfigCall :: DashCall.createReceiptCall :: rest ∧
      DashCall.createReceiptCall ∉ rest := by
    cases hc : checkNotificationConfig env.configResp with
    | errorResult msg => rw [hc] at hcfg; simp [isErrorCheck] at hcfg
    | warningResult msg =>
      cases hok : env.createResp.ok
      · exact ⟨[], by simp [handleSendReceipt, hc, hok], by simp⟩
      · rcases hrid : truthyStr (receiptIdOf env.createResp) with _ | rid
        · exact ⟨[], by simp [handleSendReceipt, hc, hok, hrid], by simp⟩
        · refine ⟨(sendNotifications fd.submitted.customerEmail
              (truthyStr fd.submitted.customerPhone) env).calls, ?_,
              (sendNotifications_calls_sub _ _ _).1⟩
          simp [handleSendReceipt, hc, hok, hrid]
    | nullResult =>
      cases hok : env.createResp.ok
      · exact ⟨[], by simp [handleSendReceipt, hc, hok], by simp⟩
      · rcases hrid : truthyStr (receiptIdOf env.createResp) with _ | rid
        · exact ⟨[], by simp [handleSendReceipt, hc, hok, hrid], by simp⟩
        · refine ⟨(sendNotifications fd.submitted.customerEmail
              (truthyStr fd.submitted.customerPhone) env).calls, ?_,
              (sendNotifications_calls_sub _ _ _).1⟩
          simp [handleSendReceipt, hc, hok, hrid]
  obtain ⟨rest, hcalls, hnotin⟩ := hshape
  rw [hcalls]
  refine ⟨rfl, ?_⟩
  have h0 : rest.count DashCall.createReceiptCall = 0 := List.count_eq_zero.mpr hnotin
  simp [List.count_cons, h0]

def c4Preview : PreviewData :=
  { submitted := c4Receipt, receiptNumber := "REC-1700", timestamp := 1700,
    status := "Not Sent" }

def c4Env : DashEnv :=
  { configResp := { threw := false, ok := true, emailConfigured := true, smsConfigured := true },
    createResp :=
      { ok := true, receipt := some { id := some "id1", mongoId := none }, error := none },
    sendBothResp :=
      { ok := true,
        results :=
          { emailSent := some true, smsSent := some true,
            emailMessage := none, smsMessage := none } },
    sendEmailResp := { ok := true, success := true, error := none } }

/-- C4 witness: the amended theorem at a concrete send-flow input. -/
theorem receipt_created_on_send_witness :
    (handleSendReceipt (some c4Preview) c4Env).calls.take 2 =
      [DashCall.getConfigCall, DashCall.createReceiptCall] ∧
    (handleSendReceipt (some c4Preview) c4Env).calls.count DashCall.createReceiptCall = 1 :=
  receipt_created_on_send c4Preview c4Env (by decide)

/-- Concrete 401 environment: the stored token draws a 401, refresh succeeds,
the fresh token draws a 200. -/
def c7Env401 : ApiEnv Nat :=
  { fetch := fun auth => if auth = some "Bearer new7" then ⟨200, true, 1⟩ else ⟨401, false, 0⟩,
    refreshFetch := fun _ => ⟨true, "new7"⟩ }

def c7St401 : Storage :=
  { access_token := some "old7", refresh_token := some "r7", user := none }

/-- C7 counterexample: under a 401 answer with a successful refresh, one
`receiptsAPI.getAll` call issues its GET request to the `/receipts`
endpoint twice, refuting "exactly one GET request is issued". -/
theorem receiptsAPI_getAll_two_requests :
    (receiptsAPI.getAll 1 20 "" "" c7Env401 c7St401).1.trace.length = 2 ∧
    ∀ call ∈ (receiptsAPI.getAll 1 20 "" "" c7Env401 c7St401).1.trace,
      call.endpoint = "/receipts?page=1&per_page=20" ∧ call.method = "GET" := by
  decide

/-- C7 (amended): `receiptsAPI.getAll(page, perPage, search, status)` targets
the `/receipts` endpoint with a query that always carries `page` and
`per_page` (defaults 1 and 20), carries `search`/`status` exactly when
non-empty, and returns the response unmodified as `{ ok, data }`; exactly one
GET request is issued provided the response is not a 401 (the refresh flow
retries the request once otherwise). -/
theorem receiptsAPI_getAll_query {β : Type} (page perPage : Nat) (search status : String)
    (env : ApiEnv β) (st : Storage)
    (hstat : (env.fetch (bearerOf st.access_token)).status ≠ 401) :
    (receiptsAPI.getAll page perPage search status env st).1.trace =
      [⟨"/receipts?" ++ renderQuery (getAllParams page perPage search status), "GET",
        bearerOf st.access_token⟩] ∧
    (receiptsAPI.getAll page perPage search status env st).2 =
      .ok { ok := (env.fetch (bearerOf st.access_token)).ok,
            data := (env.fetch (bearerOf st.access_token)).json } ∧
    ("page", toString page) ∈ getAllParams page perPage search status ∧
    ("per_page", toString perPage) ∈ getAllParams page perPage search status ∧
    (("search", search) ∈ getAllParams page perPage search status ↔ search ≠ "") ∧
    (("status", status) ∈ getAllParams page perPage search status ↔ status ≠ "") ∧
    receiptsAPI.getAllDefaults env st = receiptsAPI.getAll 1 20 "" "" env st := by
  refine ⟨?_, ?_, ?_, ?_, ?_, ?_, rfl⟩
  · simp [receiptsAPI.getAll, apiCallJson, apiRequest, getToken, getOptions, hstat]
  · simp [receiptsAPI.getAll, apiCallJson, apiRequest, wrapJson, getToken, getOptions, hstat,
      Except.map]
  · unfold getAllParams; split_ifs <;> simp_all
  · unfold getAllParams; split_ifs <;> simp_all
  · unfold getAllParams; split_ifs <;> simp_all
  · unfold getAllParams; split_ifs <;> simp_all

/-- Concrete non-401 environment for the C7 witness. -/
def c7Env : ApiEnv Nat :=
  { fetch := fun _ => ⟨200, true, 3⟩, refreshFetch := fun _ => ⟨false, ""⟩ }

def c7St : Storage := { access_token := some "tok", refresh_token := none, user := none }

/-- C7 witness: one GET with `search` present exactly because it is
non-empty. -/
theorem receiptsAPI_getAll_query_witness :
    (receiptsAPI.getAll 1 20 "ma" "" c7Env c7St).1.trace =
      [⟨"/receipts?" ++ renderQuery (getAllParams 1 20 "ma" ""), "GET",
        bearerOf c7St.access_token⟩] ∧
    (("search", "ma") ∈ getAllParams 1 20 "ma" "" ↔ "ma" ≠ "") := by
  obtain ⟨h1, -, -, -, h5, -, -⟩ :=
    receiptsAPI_getAll_query 1 20 "ma" "" c7Env c7St (by decide)
  exact ⟨h1, h5⟩

/-- The `{ ok, data }` wrap of any outcome whose request produced a
response. -/
theorem wrapJson_ok {β : Type} (o : ApiOutcome β) (r : Resp β) (h : o.result = .ok r) :
    wrapJson o = .ok { ok := r.ok, data := r.json } := by
  simp [wrapJson, h, Except.map]

/-- C8: every method of `receiptsAPI` and `notificationsAPI`, whenever its
`apiRequest` yields a response, returns exactly `{ ok: response.ok,
data: parsed JSON body }` — no further classification of failures. -/
theorem api_methods_ok_data {β : Type} (env : ApiEnv β) (st : Storage)
    (id receiptData email phone : String) (emailOpt phoneOpt : Option String)
    (page perPage : Nat) (search status : String) :
    (∀ r, (receiptsAPI.create receiptData env st).1.result = .ok r →
      (receiptsAPI.create receiptData env st).2 = .ok { ok := r.ok, data := r.json }) ∧
    (∀ r, (receiptsAPI.getAll page perPage search status env st).1.result = .ok r →
      (receiptsAPI.getAll page perPage search status env st).2 =
        .ok { ok := r.ok, data := r.json }) ∧
    (∀ r, (receiptsAPI.getById id env st).1.result = .ok r →
      (receiptsAPI.getById id env st).2 = .ok { ok := r.ok, data := r.json }) ∧
    (∀ r, (receiptsAPI.update id receiptData env st).1.result = .ok r →
      (receiptsAPI.update id receiptData env st).2 = .ok { ok := r.ok, data := r.json }) ∧
    (∀ r, (receiptsAPI.deleteReceipt id env st).1.result = .ok r →
      (receiptsAPI.deleteReceipt id env st).2 = .ok { ok := r.ok, data := r.json }) ∧
    (∀ r, (receiptsAPI.getStats env st).1.result = .ok r →
      (receiptsAPI.getStats env st).2 = .ok { ok := r.ok, data := r.json }) ∧
    (∀ r, (notificationsAPI.sendEmail id emailOpt env st).1.result = .ok r →
      (notificationsAPI.sendEmail id emailOpt env st).2 =
        .ok { ok := r.ok, data := r.json }) ∧
    (∀ r, (notificationsAPI.sendSMS id phoneOpt env st).1.result = .ok r →
      (notificationsAPI.sendSMS id phoneOpt env st).2 =
        .ok { ok := r.ok, data := r.json }) ∧
    (∀ r, (notificationsAPI.sendBoth id emailOpt phoneOpt env st).1.result = .ok r →
      (notificationsAPI.sendBoth id emailOpt phoneOpt env st).2 =
        .ok { ok := r.ok, data := r.json }) ∧
    (∀ r, (notificationsAPI.testEmail email env st).1.result = .ok r →
      (notificationsAPI.testEmail email env st).2 = .ok { ok := r.ok, data := r.json }) ∧
    (∀ r, (notificationsAPI.testSMS phone env st).1.result = .ok r →
      (notificationsAPI.testSMS phone env st).2 = .ok { ok := r.ok, data := r.json }) ∧
    (∀ r, (notificationsAPI.getConfig env st).1.result = .ok r →
      (notificationsAPI.getConfig env st).2 = .ok { ok := r.ok, data := r.json }) := by
  refine ⟨?_, ?_, ?_, ?_, ?_, ?_, ?_, ?_, ?_, ?_, ?_, ?_⟩ <;>
    exact fun r h => wrapJson_ok _ r h

/-- Concrete environment for the C8 witness. -/
def c8Env : ApiEnv Nat :=
  { fetch := fun _ => ⟨200, true, 42⟩, refreshFetch := fun _ => ⟨false, ""⟩ }

def c8St : Storage := { access_token := some "t8", refresh_token := none, user := none }

/-- C8 witness: `getStats` at a concrete 200 response returns
`{ ok: true, data: 42 }`. -/
theorem api_methods_ok_data_witness :
    (receiptsAPI.getStats c8Env c8St).2 = .ok { ok := true, data := 42 } :=
  (api_methods_ok_data c8Env c8St "i" "rd" "e" "p" none none 1 20 "" "").2.2.2.2.2.1
    { status := 200, ok := true, json := 42 } rfl
